import Mathlib

/-!
Verification of the zeynbot web backend (Express + MongoDB) and its browser
frontend, shallowly embedded in Lean 4.

The embedding covers the components the specification's claims are about:

* the server-side discount computation of the `POST /buy` handler
  (`src/functions/api.js`, lines 427-439);
* the client-side discount shown by the shop view
  (`src/inventory.js`, `displayShopData`);
* the purchase transactor of `POST /buy` as a state transformer over the
  three documents it touches (user stats, item, inventory), with MongoDB
  transaction semantics: every abort path returns the pre-call state;
* the rank calculator and achievement evaluator of `GET /profile/:uuid`
  and `GET /achievements/:uuid`;
* the role-acquisition-date rebuild of the Discord OAuth verify callback;
* the server-side `NodeCache` in front of `GET /profile/:uuid` and the
  client-side in-memory caches touched by `buyItem`.

JavaScript numbers are modelled as `ℚ` where they may be fractional
(`stars`, prices) and as `ℤ`/`ℕ` where the code treats them as integers
(stock, quantities, counters, day of week).  `Math.round` is modelled as
`⌊x + 1/2⌋` (round half toward positive infinity, which is what
`Math.round` implements) and `Math.floor` on naturals as natural division.
-/

/-- The JavaScript `Math.round`: round half toward positive infinity,
`Math.round(x) = ⌊x + 0.5⌋`.  Defined through `Rat.floor` so that it is
kernel-computable. -/
def jsRound (x : ℚ) : ℤ := (x + 1 / 2).floor

/-- The function `jsRound` agrees with the mathematical floor of `x + 1/2`. -/
theorem jsRound_eq_floor (x : ℚ) : jsRound x = ⌊x + 1 / 2⌋ := by
  rw [jsRound, Rat.floor_def', Rat.floor_def]

/-- Rounding an integer returns it unchanged. -/
theorem jsRound_intCast (n : ℤ) : jsRound (n : ℚ) = n := by
  rw [jsRound_eq_floor, add_comm, Int.floor_add_int]
  norm_num

/-! ## Discount computation

Server side (`POST /buy`, `src/functions/api.js` lines 427-439):

```js
const today = new Date().getDay();
const isDiscountDay = today === 0 || today === 6;
let discountPercentage = isDiscountDay ? 5 : 0;
const hasPermanentDiscountRole = member.roles.cache.has('1260383669839724634');
if (hasPermanentDiscountRole) discountPercentage += 20;
const discountedPrice = Math.round(item.price * (1 - discountPercentage / 100));
```
-/

/-- The Discord role id granting the permanent 20% discount. -/
def discountRoleId : String := "1260383669839724634"

/-- The check `today === 0 || today === 6` — Sunday (0) or Saturday (6). -/
def isDiscountDay (day : Nat) : Bool := day == 0 || day == 6

/-- Additive discount percentage of the `POST /buy` handler: 5 on weekend
days plus 20 when the member holds the discount role. -/
def discountPercentage (day : Nat) (roles : List String) : Nat :=
  (if isDiscountDay day then 5 else 0) + (if roles.contains discountRoleId then 20 else 0)

/-- Final unit price computed by the `POST /buy` handler:
`Math.round(item.price * (1 - discountPercentage / 100))`. -/
def discountedPrice (price : ℚ) (day : Nat) (roles : List String) : ℤ :=
  jsRound (price * (1 - (discountPercentage day roles : ℚ) / 100))

/-! Client side (`displayShopData` in `src/inventory.js`):

```js
const isWeekend = today.getDay() === 6 || today.getDay() === 0;
const hasDiscountRole = profileData.roles.includes('1260383669839724634');
let discountedPrice = originalPrice;
if (hasDiscountRole) discountedPrice = Math.round(originalPrice * (1 - 20 / 100));
if (isWeekend) discountedPrice = Math.round(discountedPrice * (1 - 0.05));
```
-/

/-- The check `today.getDay() === 6 || today.getDay() === 0` in the shop view. -/
def clientIsWeekend (day : Nat) : Bool := day == 6 || day == 0

/-- Discounted price shown by the client-side shop view: the two discounts
are applied sequentially, each with its own rounding step. -/
def clientDiscountedPrice (price : ℚ) (day : Nat) (roles : List String) : ℚ :=
  let hasDiscountRole := roles.contains discountRoleId
  let d1 : ℚ := if hasDiscountRole then ((jsRound (price * (1 - 20 / 100)) : ℤ) : ℚ) else price
  if clientIsWeekend day then ((jsRound (d1 * (1 - 5 / 100)) : ℤ) : ℚ) else d1

/-! ## User statistics, achievements and ranks -/

/-- One persisted achievement record of a `CommandStats` document
(`userStats.achievements` entries, with their completion flag). -/
structure AchievementRecord where
  name : String
  completed : Bool
deriving DecidableEq

/-- The fields of a `CommandStats` document that the verified handlers
read: the profile handle, the message counters, voice time (milliseconds),
the stars balance and the persisted achievement records. -/
structure CommandStats where
  uuid : String
  totalMessages : Nat
  messagesToday : Nat
  messagesLast7Days : Nat
  messagesLast30Days : Nat
  voiceTime : Nat
  stars : ℚ
  achievements : List AchievementRecord
deriving DecidableEq

/-- The computation `CommandStats.countDocuments` of documents with
`totalMessages` greater than the user's, plus 1
(`src/functions/api.js` line 254). -/
def userRankAllTime (db : List CommandStats) (u : CommandStats) : Nat :=
  (db.filter (fun x => u.totalMessages < x.totalMessages)).length + 1

/-- Rank by `messagesToday` (line 255). -/
def userRankToday (db : List CommandStats) (u : CommandStats) : Nat :=
  (db.filter (fun x => u.messagesToday < x.messagesToday)).length + 1

/-- Rank by `messagesLast7Days` (line 256). -/
def userRankLast7Days (db : List CommandStats) (u : CommandStats) : Nat :=
  (db.filter (fun x => u.messagesLast7Days < x.messagesLast7Days)).length + 1

/-- Rank by `messagesLast30Days` (line 257). -/
def userRankLast30Days (db : List CommandStats) (u : CommandStats) : Nat :=
  (db.filter (fun x => u.messagesLast30Days < x.messagesLast30Days)).length + 1

/-- One entry of the static achievement catalog (name, description and the
optional numeric target). -/
structure AchievementDef where
  name : String
  description : String
  target : Option Nat
deriving DecidableEq

/-- The fixed four-entry achievement catalog, duplicated verbatim in the
`/profile/:uuid` and `/achievements/:uuid` handlers. -/
def achievementsCatalog : List AchievementDef :=
  [ ⟨"message_master", "Написать 500 сообщений за 24 часа", some 500⟩
  , ⟨"voice_champion", "Попасть в топ 1 за 24 часа по голосовому времени", none⟩
  , ⟨"lovebird", "Создать брак через бота", none⟩
  , ⟨"voice_time_10s", "Просидеть 1 час в голосовом канале подряд", some 3600⟩ ]

/-- One element of the `userAchievements` array returned by the handlers:
the catalog entry together with the computed progress and completion. -/
structure AchievementProgress where
  name : String
  description : String
  target : Option Nat
  progress : Nat
  completed : Bool
deriving DecidableEq

/-- The check `userStats.achievements.some(a => a.name === name && a.completed)`. -/
def persistedCompleted (recs : List AchievementRecord) (name : String) : Bool :=
  recs.any (fun a => a.name == name && a.completed)

/-- The body of the `achievements.map(...)` callback shared by the
`/profile/:uuid` and `/achievements/:uuid` handlers: progress is the
today-message count for `message_master`, `Math.floor(voiceTime / 1000)`
for `voice_time_10s` and 0 otherwise; completion always comes from the
persisted records. -/
def evalAchievement (u : CommandStats) (d : AchievementDef) : AchievementProgress :=
  let progress :=
    if d.name == "message_master" then u.messagesToday
    else if d.name == "voice_time_10s" then u.voiceTime / 1000
    else 0
  ⟨d.name, d.description, d.target, progress, persistedCompleted u.achievements d.name⟩

/-- The `userAchievements` array: one entry per catalog definition, in
catalog order. -/
def userAchievements (u : CommandStats) : List AchievementProgress :=
  achievementsCatalog.map (evalAchievement u)

/-! ## Identity Bridge: role acquisition dates

`src/functions/api.js` lines 161-171 of the Discord strategy verify
callback: a fresh `roleAcquisitionDates` object is built from the
currently held roles and assigned over the user's previous map.

```js
const roleAcquisitionDates = {};
const now = new Date();
for (const allowedRoleId of allowedRoleIds) {
    if (userRolesIds.includes(allowedRoleId)) {
        roleAcquisitionDates[allowedRoleId] = now;
    }
}
user.roleAcquisitionDates = roleAcquisitionDates;
```
-/

/-- The fixed staff-role allow-list (`src/functions/api.js` line 92). -/
def allowedRoleIds : List String :=
  [ "1043565185509630022", "1243243180800082001", "1075072592005824563"
  , "1043614651444899991", "1043615386660257872" ]

/-- The `for (const allowedRoleId of allowedRoleIds)` loop: starting from
an empty object, each allow-listed role the user currently holds is mapped
to `now`.  JavaScript objects preserve insertion order, modelled as an
association list extended at the back. -/
def buildRoleDates (userRolesIds : List String) (now : Nat) : List (String × Nat) :=
  allowedRoleIds.foldl
    (fun acc r => if userRolesIds.contains r then acc ++ [(r, now)] else acc) []

/-- The fields of a user document the verify callback writes. -/
structure LoginUser where
  username : String
  userAvatar : String
  roleAcquisitionDates : List (String × Nat)
deriving DecidableEq

/-- The existing-user branch of the verify callback: username and avatar
are refreshed from the Discord profile and `roleAcquisitionDates` is
replaced by the freshly built map. -/
def loginUpdateExisting (u : LoginUser) (profileUsername profileAvatar : String)
    (userRolesIds : List String) (now : Nat) : LoginUser :=
  { u with
    username := profileUsername
    userAvatar := profileAvatar
    roleAcquisitionDates := buildRoleDates userRolesIds now }

/-! ## The purchase transactor (`POST /buy`) -/

/-- The fields of an `Item` document the buy handler reads and writes:
the Mongo `_id` (as a string, the handler compares ids via `toString()`),
the name, the price and the stock (`-1` meaning unlimited). -/
structure Item where
  id : String
  name : String
  price : ℚ
  stock : ℤ
deriving DecidableEq

/-- One line of an `Inventory` document's `items` array. -/
structure InvLine where
  itemId : String
  itemName : String
  quantity : ℤ
deriving DecidableEq

/-- The documents visible to one run of the buy handler, each as the
result of the corresponding lookup: `CommandStats.findOne({uuid, userId})`,
`Item.findOne({name: itemName})`, the guild-member role fetch (`none`
models a thrown fetch error, caught by the handler's `catch`) and
`Inventory.findOne({userId})`. -/
structure BuyDb where
  user : Option CommandStats
  item : Option Item
  memberRoles : Option (List String)
  inventory : Option (List InvLine)
deriving DecidableEq

/-- Outcome of the `POST /buy` handler, one constructor per response. -/
inductive BuyResult where
  | userNotFound
  | itemNotFound
  | insufficientStock
  | serverFault
  | insufficientFunds
  | success
deriving DecidableEq

/-- The inventory upsert of the buy handler: `findIndex` on the item id,
increment the first matching line, else push a new line with the requested
quantity. -/
def addToInventory (inv : List InvLine) (itemId itemName : String) (quantity : ℤ) :
    List InvLine :=
  match inv with
  | [] => [⟨itemId, itemName, quantity⟩]
  | line :: rest =>
    if line.itemId == itemId then
      { line with quantity := line.quantity + quantity } :: rest
    else
      line :: addToInventory rest itemId itemName quantity

/-- Quantity of the first inventory line matching `itemId` (0 when the
item has no line). -/
def invQty (inv : List InvLine) (itemId : String) : ℤ :=
  match inv.find? (fun i => i.itemId == itemId) with
  | some line => line.quantity
  | none => 0

/-- The `POST /buy` handler as a state transformer over the documents it
touches.  The transaction semantics of the surrounding
`session.startTransaction() / abortTransaction() / commitTransaction()` are
modelled by returning the input state unchanged on every non-success path;
on success the state carries the debited user, the decremented item (when
its stock is finite) and the upserted inventory. -/
def buy (db : BuyDb) (day : Nat) (quantity : ℤ) : BuyResult × BuyDb :=
  match db.user with
  | none => (.userNotFound, db)
  | some user =>
    match db.item with
    | none => (.itemNotFound, db)
    | some item =>
      if item.stock ≠ -1 ∧ item.stock < quantity then (.insufficientStock, db)
      else
        match db.memberRoles with
        | none => (.serverFault, db)
        | some roles =>
          let price := discountedPrice item.price day roles
          if user.stars < ((price * quantity : ℤ) : ℚ) then (.insufficientFunds, db)
          else
            let user' := { user with stars := user.stars - ((price * quantity : ℤ) : ℚ) }
            let item' := if item.stock ≠ -1 then { item with stock := item.stock - quantity } else item
            let inv' := addToInventory (db.inventory.getD []) item.id item.name quantity
            (.success, { db with user := some user', item := some item', inventory := some inv' })

/-! ## Server-side and client-side caches

The server keeps a `NodeCache` instance (`const cache = new NodeCache(...)`)
consulted by `GET /profile/:uuid` under the key `profile_<uuid>`; the
`POST /buy` handler contains no operation on this cache.  "Within the
time-to-live" is modelled as the entry being present.  The browser keeps
`cachedProfileData` and `shopDataCache`, which `buyItem` resets after a
successful purchase.
-/

/-- The JSON document cached for `GET /profile/:uuid`: the raw stats
spread together with the computed ranks, the fetched role ids and the
evaluated achievements. -/
structure ProfileData where
  stats : CommandStats
  userRankAllTime : Nat
  userRankToday : Nat
  userRankLast7Days : Nat
  userRankLast30Days : Nat
  roles : List String
  achievements : List AchievementProgress
deriving DecidableEq

/-- The `profileData` object built by `GET /profile/:uuid` on a cache
miss. -/
def buildProfileData (db : List CommandStats) (u : CommandStats)
    (userRolesIds : List String) : ProfileData :=
  { stats := u
  , userRankAllTime := userRankAllTime db u
  , userRankToday := userRankToday db u
  , userRankLast7Days := userRankLast7Days db u
  , userRankLast30Days := userRankLast30Days db u
  , roles := userRolesIds
  , achievements := userAchievements u }

/-- The server-side `NodeCache`, as an association list whose most recent
entry wins (`cache.set` prepends). -/
abbrev ServerCache := List (String × ProfileData)

/-- The `GET /profile/:uuid` handler: return the cached entry when present; otherwise
resolve the user (`none` result models the 404), fetch the guild roles
(`fetchedRoles = none` models the upstream failure caught as a 500), build
the profile document and cache it under `profile_<uuid>`. -/
def profileGet (cache : ServerCache) (db : List CommandStats)
    (fetchedRoles : Option (List String)) (uuid : String) :
    Option ProfileData × ServerCache :=
  let cacheKey := "profile_" ++ uuid
  match cache.lookup cacheKey with
  | some cached => (some cached, cache)
  | none =>
    match db.find? (fun u => u.uuid == uuid) with
    | none => (none, cache)
    | some u =>
      match fetchedRoles with
      | none => (none, cache)
      | some roles =>
        let p := buildProfileData db u roles
        (some p, (cacheKey, p) :: cache)

/-- The server state visible to the buy handler together with the
`NodeCache`; the handler's body never names `cache`, so the cache is
threaded through untouched. -/
structure ServerState where
  cache : ServerCache
  buyDb : BuyDb
deriving DecidableEq

/-- The `POST /buy` handler acting on the full server state. -/
def serverBuy (s : ServerState) (day : Nat) (quantity : ℤ) :
    BuyResult × ServerState :=
  let r := buy s.buyDb day quantity
  (r.1, { cache := s.cache, buyDb := r.2 })

/-- The two client-side in-memory caches of `src/inventory.js`. -/
structure ClientCaches where
  shopDataCache : Option (List Item)
  cachedProfileData : List (String × Option ProfileData)
deriving DecidableEq

/-- Cache effect of a successful `buyItem` call:
`cachedProfileData[uuid] = null` and `shopDataCache = null`. -/
def clientBuySuccessCaches (c : ClientCaches) (uuid : String) : ClientCaches :=
  { shopDataCache := none
  , cachedProfileData := (uuid, none) :: c.cachedProfileData }

/-! ## Theorems -/

/-- C3: the purchase discount is additive on percentages (0, plus 5 on
Saturday/Sunday, plus 20 with the discount role) and applied exactly once
as `round(price * (1 - totalPercent/100))` with round-half-up
(`jsRound x = ⌊x + 1/2⌋`, so 12.5 rounds to 13); price 100 on Saturday
with the role gives 75, price 100 on a weekday without the role gives 100,
and price 33 on a weekend without the role gives round(31.35) = 31. -/
theorem discount_additive_applied_once :
    (∀ (price : ℚ) (day : Nat) (roles : List String),
      discountedPrice price day roles =
        jsRound (price * (1 - (((if isDiscountDay day then 5 else 0)
          + (if roles.contains discountRoleId then 20 else 0) : ℕ) : ℚ) / 100)))
    ∧ (∀ x : ℚ, jsRound x = ⌊x + 1 / 2⌋)
    ∧ jsRound (25 / 2) = 13
    ∧ discountedPrice 100 6 [discountRoleId] = 75
    ∧ discountedPrice 100 1 [] = 100
    ∧ discountedPrice 33 6 [] = 31 := by
  refine ⟨fun _ _ _ => rfl, jsRound_eq_floor, ?_, ?_, ?_, ?_⟩ <;>
    norm_num [discountedPrice, discountPercentage, isDiscountDay, discountRoleId,
      jsRound, Rat.floor_def', List.contains]

/-- C4 counterexample: on a Saturday with the discount role, the shop view
shows price 76 for an item of price 100 while the buy handler charges 75 —
the client applies the two discounts sequentially with intermediate
rounding, so it does not implement the server's additive-then-round
function. -/
theorem client_server_price_mismatch :
    discountedPrice 100 6 [discountRoleId] = 75
    ∧ clientDiscountedPrice 100 6 [discountRoleId] = 76
    ∧ clientDiscountedPrice 100 6 [discountRoleId]
        ≠ ((discountedPrice 100 6 [discountRoleId] : ℤ) : ℚ) := by
  norm_num [discountedPrice, clientDiscountedPrice, discountPercentage,
    isDiscountDay, clientIsWeekend, discountRoleId, jsRound, Rat.floor_def',
    List.contains]

/-- C4 (amended): for integer prices, the shop view and the buy handler
compute the same discounted price whenever at most one of the two discount
conditions holds (no discount, weekend only, or role only); with both
active they can differ, as the counterexample shows. -/
theorem client_server_price_agree_single_discount
    (price : ℤ) (day : Nat) (roles : List String)
    (h : isDiscountDay day = false ∨ roles.contains discountRoleId = false) :
    clientDiscountedPrice (price : ℚ) day roles
      = ((discountedPrice (price : ℚ) day roles : ℤ) : ℚ) := by
  have hc : clientIsWeekend day = isDiscountDay day := by
    simp [clientIsWeekend, isDiscountDay, Bool.or_comm]
  rcases h with h | h
  · cases hr : roles.contains discountRoleId with
    | false =>
      simp only [clientDiscountedPrice, discountedPrice, discountPercentage,
        hc, h, hr, if_false, Bool.false_eq_true]
      norm_num [jsRound_intCast]
    | true =>
      simp only [clientDiscountedPrice, discountedPrice, discountPercentage,
        hc, h, hr, if_false, if_true, Bool.false_eq_true]
      norm_num
  · cases hw : isDiscountDay day with
    | false =>
      simp only [clientDiscountedPrice, discountedPrice, discountPercentage,
        hc, h, hw, if_false, Bool.false_eq_true]
      norm_num [jsRound_intCast]
    | true =>
      simp only [clientDiscountedPrice, discountedPrice, discountPercentage,
        hc, h, hw, if_false, if_true, Bool.false_eq_true]
      norm_num

/-- Witness for the amended C4 theorem at price 100 on a weekday without
the role: both sides give 100. -/
theorem client_server_price_agree_single_discount_witness :
    (isDiscountDay 1 = false ∨ ([] : List String).contains discountRoleId = false)
    ∧ clientDiscountedPrice ((100 : ℤ) : ℚ) 1 []
        = ((discountedPrice ((100 : ℤ) : ℚ) 1 [] : ℤ) : ℚ) :=
  ⟨Or.inl rfl, client_server_price_agree_single_discount 100 1 [] (Or.inl rfl)⟩

/-- The role-date loop, started from an arbitrary accumulator, appends one
`(role, now)` pair per held allow-listed role. -/
theorem foldl_roleDates_eq (ids roles : List String) (now : Nat)
    (acc : List (String × Nat)) :
    ids.foldl (fun acc r => if roles.contains r then acc ++ [(r, now)] else acc) acc
      = acc ++ (ids.filter (fun r => roles.contains r)).map (fun r => (r, now)) := by
  induction ids generalizing acc with
  | nil => simp
  | cons hd tl ih =>
    simp only [List.foldl_cons, List.filter_cons]
    by_cases hhd : roles.contains hd
    · rw [if_pos hhd, if_pos hhd, ih, List.map_cons, List.append_assoc,
        List.singleton_append]
    · rw [if_neg hhd, if_neg hhd, ih]

/-- The admin role id, first entry of the allow-list. -/
def adminRoleId : String := "1043565185509630022"

/-- A returning user whose admin role acquisition was recorded at time
111. -/
def legacyUser : LoginUser := ⟨"old", "av", [(adminRoleId, 111)]⟩

/-- C7 counterexample: when `legacyUser` logs in again at time 222 still
holding the admin role, the recorded acquisition timestamp 111 is not
preserved — the verify callback rebuilds the map and stores 222. -/
theorem roleDate_not_preserved :
    (loginUpdateExisting legacyUser "old" "av" [adminRoleId] 222).roleAcquisitionDates.lookup
        adminRoleId = some 222
    ∧ legacyUser.roleAcquisitionDates.lookup adminRoleId = some 111
    ∧ (loginUpdateExisting legacyUser "old" "av" [adminRoleId] 222).roleAcquisitionDates.lookup
        adminRoleId
      ≠ legacyUser.roleAcquisitionDates.lookup adminRoleId := by
  decide

/-- C7 (amended): on every login of an existing user the verify callback
rebuilds `roleAcquisitionDates` from scratch: the stored map becomes
exactly the allow-listed roles currently held, each stamped with the
login time `now`; previously recorded timestamps (including those of
roles no longer held) are discarded. -/
theorem roleDates_rebuilt_on_login (u : LoginUser) (profileUsername profileAvatar : String)
    (userRolesIds : List String) (now : Nat) :
    (loginUpdateExisting u profileUsername profileAvatar userRolesIds now).roleAcquisitionDates
      = (allowedRoleIds.filter (fun r => userRolesIds.contains r)).map (fun r => (r, now)) := by
  show buildRoleDates userRolesIds now = _
  rw [buildRoleDates, foldl_roleDates_eq]
  simp

/-- First example user of the rank test: 10 all-time messages. -/
def rankUserA : CommandStats := ⟨"a", 10, 0, 0, 0, 0, 0, []⟩

/-- Second example user of the rank test: 10 all-time messages. -/
def rankUserB : CommandStats := ⟨"b", 10, 0, 0, 0, 0, 0, []⟩

/-- Third example user of the rank test: 5 all-time messages. -/
def rankUserC : CommandStats := ⟨"c", 5, 0, 0, 0, 0, 0, []⟩

/-- The three-user collection of the rank test. -/
def rankDb : List CommandStats := [rankUserA, rankUserB, rankUserC]

/-- C5: each of the four rank computations returns 1 plus the number of
users whose stored value for that metric is strictly greater than the
given user's value; for three users with `totalMessages` 10, 10, 5 the
ranks are 1, 1, 3 and no user is ranked 2. -/
theorem rank_is_one_plus_strictly_greater :
    (∀ (db : List CommandStats) (u : CommandStats),
      userRankAllTime db u
        = 1 + db.countP (fun x => u.totalMessages < x.totalMessages))
    ∧ (∀ (db : List CommandStats) (u : CommandStats),
      userRankToday db u
        = 1 + db.countP (fun x => u.messagesToday < x.messagesToday))
    ∧ (∀ (db : List CommandStats) (u : CommandStats),
      userRankLast7Days db u
        = 1 + db.countP (fun x => u.messagesLast7Days < x.messagesLast7Days))
    ∧ (∀ (db : List CommandStats) (u : CommandStats),
      userRankLast30Days db u
        = 1 + db.countP (fun x => u.messagesLast30Days < x.messagesLast30Days))
    ∧ rankDb.map (userRankAllTime rankDb) = [1, 1, 3]
    ∧ 2 ∉ rankDb.map (userRankAllTime rankDb) := by
  refine ⟨?_, ?_, ?_, ?_, by decide, by decide⟩ <;>
    intro db u <;>
    rw [List.countP_eq_length_filter, Nat.add_comm] <;>
    rfl

/-- A user with 5000 ms of voice time and no persisted achievement
records. -/
def voiceUserFresh : CommandStats := ⟨"v1", 0, 0, 0, 0, 5000, 0, []⟩

/-- A user with 5000 ms of voice time whose `voice_time_10s` record is
persisted as completed. -/
def voiceUserPersisted : CommandStats :=
  ⟨"v2", 0, 0, 0, 0, 5000, 0, [⟨"voice_time_10s", true⟩]⟩

/-- A user whose voice time (3 600 000 ms = 3600 s) reaches the
`voice_time_10s` target but who has no persisted records. -/
def voiceUserMaxed : CommandStats := ⟨"v3", 0, 0, 0, 0, 3600000, 0, []⟩

/-- C6: the achievement evaluator produces exactly one entry per catalog
definition, in catalog order — progress is `messagesToday` for
`message_master`, `⌊voiceTime / 1000⌋` for `voice_time_10s` and 0
otherwise, and `completed` is true iff a persisted record with matching
name has its completion flag set.  Concretely: 5000 ms of voice time gives
progress 5 with `completed` exactly as persisted (false without a record,
true with one), and progress 3600 reaching the 3600 target still leaves
`completed` false when nothing is persisted. -/
theorem achievements_progress_and_completion :
    (∀ u : CommandStats, userAchievements u =
      [ ⟨"message_master", "Написать 500 сообщений за 24 часа", some 500,
          u.messagesToday, persistedCompleted u.achievements "message_master"⟩
      , ⟨"voice_champion", "Попасть в топ 1 за 24 часа по голосовому времени", none,
          0, persistedCompleted u.achievements "voice_champion"⟩
      , ⟨"lovebird", "Создать брак через бота", none,
          0, persistedCompleted u.achievements "lovebird"⟩
      , ⟨"voice_time_10s", "Просидеть 1 час в голосовом канале подряд", some 3600,
          u.voiceTime / 1000, persistedCompleted u.achievements "voice_time_10s"⟩ ])
    ∧ (∀ (recs : List AchievementRecord) (name : String),
        persistedCompleted recs name = true ↔ ∃ r ∈ recs, r.name = name ∧ r.completed = true)
    ∧ (userAchievements voiceUserFresh).map (fun a => (a.progress, a.completed))
        = [(0, false), (0, false), (0, false), (5, false)]
    ∧ (userAchievements voiceUserPersisted).map (fun a => (a.progress, a.completed))
        = [(0, false), (0, false), (0, false), (5, true)]
    ∧ (userAchievements voiceUserMaxed).map (fun a => (a.progress, a.completed))
        = [(0, false), (0, false), (0, false), (3600, false)] := by
  refine ⟨fun u => rfl, ?_, by decide, by decide, by decide⟩
  intro recs name
  simp [persistedCompleted, List.any_eq_true, Bool.and_eq_true, beq_iff_eq]

/-- The inventory upsert raises the (first-match) quantity of the bought
item by exactly the purchased quantity. -/
theorem invQty_addToInventory (inv : List InvLine) (itemId itemName : String) (q : ℤ) :
    invQty (addToInventory inv itemId itemName q) itemId = invQty inv itemId + q := by
  induction inv with
  | nil => simp [addToInventory, invQty]
  | cons line rest ih =>
    by_cases hl : line.itemId == itemId
    · simp [addToInventory, invQty, hl, List.find?_cons]
    · simp only [addToInventory, hl, Bool.false_eq_true, if_false]
      simpa [invQty, List.find?_cons, hl] using ih

/-- When the item has no inventory line yet, the upsert appends a fresh
line with the purchased quantity. -/
theorem addToInventory_absent (inv : List InvLine) (itemId itemName : String) (q : ℤ)
    (h : inv.find? (fun i => i.itemId == itemId) = none) :
    addToInventory inv itemId itemName q = inv ++ [⟨itemId, itemName, q⟩] := by
  induction inv with
  | nil => rfl
  | cons line rest ih =>
    rw [List.find?_cons] at h
    by_cases hl : line.itemId == itemId
    · simp [hl] at h
    · simp only [hl, Bool.false_eq_true, if_false] at h ⊢
      rw [addToInventory, if_neg (by simp [hl]), ih h, List.cons_append]

/-- Unfolding of `buy` when all three lookups succeed: the guards fire in
source order and the success branch carries the three rewritten
documents. -/
theorem buy_eq (user : CommandStats) (item : Item) (roles : List String)
    (inv : Option (List InvLine)) (day : Nat) (q : ℤ) :
    buy ⟨some user, some item, some roles, inv⟩ day q =
      if item.stock ≠ -1 ∧ item.stock < q then
        (.insufficientStock, ⟨some user, some item, some roles, inv⟩)
      else if user.stars < ((discountedPrice item.price day roles * q : ℤ) : ℚ) then
        (.insufficientFunds, ⟨some user, some item, some roles, inv⟩)
      else
        (.success,
          ⟨some { user with
              stars := user.stars - ((discountedPrice item.price day roles * q : ℤ) : ℚ) },
           some (if item.stock ≠ -1 then { item with stock := item.stock - q } else item),
           some roles,
           some (addToInventory (inv.getD []) item.id item.name q)⟩) := rfl

/-- C1: every failing run of the `POST /buy` transactor — unknown user,
unknown item, insufficient stock, upstream failure, insufficient funds —
aborts the transaction and leaves the user document, the item document and
the inventory document exactly as they were before the call. -/
theorem buy_failure_rolls_back (db : BuyDb) (day : Nat) (q : ℤ)
    (h : (buy db day q).1 ≠ .success) : (buy db day q).2 = db := by
  obtain ⟨u, i, r, inv⟩ := db
  cases u with
  | none => rfl
  | some user =>
    cases i with
    | none => rfl
    | some item =>
      cases r with
      | none =>
        by_cases hstock : item.stock ≠ -1 ∧ item.stock < q
        · simp only [buy]; rw [if_pos hstock]
        · simp only [buy]; rw [if_neg hstock]
      | some roles =>
        by_cases hstock : item.stock ≠ -1 ∧ item.stock < q
        · simp only [buy]; rw [if_pos hstock]
        · by_cases hfunds :
            user.stars < ((discountedPrice item.price day roles * q : ℤ) : ℚ)
          · simp only [buy]; rw [if_neg hstock, if_pos hfunds]
          · exfalso
            apply h
            rw [buy_eq, if_neg hstock, if_neg hfunds]

/-- Witness for C1: looking up an unknown user fails the purchase and the
state is returned unchanged. -/
theorem buy_failure_rolls_back_witness :
    (buy ⟨none, none, none, none⟩ 1 1).1 ≠ .success
    ∧ (buy ⟨none, none, none, none⟩ 1 1).2 = ⟨none, none, none, none⟩ :=
  ⟨by decide, buy_failure_rolls_back ⟨none, none, none, none⟩ 1 1 (by decide)⟩

/-- C2: a successful purchase debits the stars balance by exactly
`finalPrice × quantity`, decrements a finite stock by the quantity (an
unlimited `-1` stock is untouched), and raises the inventory line of the
bought item by exactly the quantity, appending a fresh line with that
quantity when none existed. -/
theorem buy_success_effects (user : CommandStats) (item : Item) (roles : List String)
    (inv : Option (List InvLine)) (day : Nat) (q : ℤ)
    (h : (buy ⟨some user, some item, some roles, inv⟩ day q).1 = .success) :
    (buy ⟨some user, some item, some roles, inv⟩ day q).2.user
        = some { user with
            stars := user.stars - ((discountedPrice item.price day roles * q : ℤ) : ℚ) }
    ∧ (buy ⟨some user, some item, some roles, inv⟩ day q).2.item
        = some (if item.stock ≠ -1 then { item with stock := item.stock - q } else item)
    ∧ (buy ⟨some user, some item, some roles, inv⟩ day q).2.inventory
        = some (addToInventory (inv.getD []) item.id item.name q)
    ∧ invQty (addToInventory (inv.getD []) item.id item.name q) item.id
        = invQty (inv.getD []) item.id + q
    ∧ ((inv.getD []).find? (fun i => i.itemId == item.id) = none →
        addToInventory (inv.getD []) item.id item.name q
          = (inv.getD []) ++ [⟨item.id, item.name, q⟩]) := by
  rw [buy_eq] at h ⊢
  by_cases hstock : item.stock ≠ -1 ∧ item.stock < q
  · rw [if_pos hstock] at h
    exact BuyResult.noConfusion h
  · rw [if_neg hstock] at h ⊢
    by_cases hfunds : user.stars < ((discountedPrice item.price day roles * q : ℤ) : ℚ)
    · rw [if_pos hfunds] at h
      exact BuyResult.noConfusion h
    · rw [if_neg hfunds]
      exact ⟨rfl, rfl, rfl, invQty_addToInventory _ _ _ _,
        addToInventory_absent _ _ _ _⟩

/-- A buyer with 100 stars and no inventory yet. -/
def buyerW : CommandStats := ⟨"w", 0, 0, 0, 0, 0, 100, []⟩

/-- An item priced 10 with 5 in stock. -/
def swordW : Item := ⟨"i1", "sword", 10, 5⟩

/-- Documents seen by a concrete successful purchase: `buyerW` buys
`swordW` with no Discord roles and no existing inventory document. -/
def buyDbW : BuyDb := ⟨some buyerW, some swordW, some [], none⟩

/-- On a weekday with no roles the concrete purchase of 2 swords
succeeds. -/
theorem buyDbW_success : (buy buyDbW 1 2).1 = .success := by
  show (buy ⟨some buyerW, some swordW, some [], none⟩ 1 2).1 = .success
  rw [buy_eq]
  norm_num [buyerW, swordW, discountedPrice, discountPercentage, isDiscountDay,
    discountRoleId, jsRound, Rat.floor_def', List.contains]

/-- Witness for C2: buying 2 swords at price 10 from a balance of 100
succeeds and leaves the documents debited, decremented and upserted. -/
theorem buy_success_effects_witness :
    (buy ⟨some buyerW, some swordW, some [], none⟩ 1 2).1 = .success
    ∧ (buy ⟨some buyerW, some swordW, some [], none⟩ 1 2).2.user
        = some { buyerW with stars := 80 }
    ∧ (buy ⟨some buyerW, some swordW, some [], none⟩ 1 2).2.item
        = some { swordW with stock := 3 }
    ∧ (buy ⟨some buyerW, some swordW, some [], none⟩ 1 2).2.inventory
        = some [⟨"i1", "sword", 2⟩] := by
  have hsucc : (buy ⟨some buyerW, some swordW, some [], none⟩ 1 2).1 = .success :=
    buyDbW_success
  obtain ⟨hu, hi, hinv, -, -⟩ := buy_success_effects buyerW swordW [] none 1 2 hsucc
  refine ⟨hsucc, ?_, ?_, ?_⟩
  · rw [hu]
    norm_num [buyerW, swordW, discountedPrice, discountPercentage, isDiscountDay,
      discountRoleId, jsRound, Rat.floor_def', List.contains, CommandStats.mk.injEq]
  · rw [hi]
    norm_num [swordW, Item.mk.injEq]
  · rw [hinv]
    norm_num [swordW, addToInventory, Option.getD]

/-- C8: after a successful purchase the debited balance is still
non-negative (the insufficient-funds guard bounds the debit by the
pre-call balance) and a finite stock is never decremented below 0 (the
insufficient-stock guard bounds the decrement by the stock). -/
theorem buy_success_balance_and_stock_nonneg (user : CommandStats) (item : Item)
    (roles : List String) (inv : Option (List InvLine)) (day : Nat) (q : ℤ)
    (h0 : 0 ≤ user.stars)
    (h : (buy ⟨some user, some item, some roles, inv⟩ day q).1 = .success) :
    (∀ user', (buy ⟨some user, some item, some roles, inv⟩ day q).2.user = some user'
        → 0 ≤ user'.stars)
    ∧ (item.stock ≠ -1 →
        ∀ item', (buy ⟨some user, some item, some roles, inv⟩ day q).2.item = some item'
          → 0 ≤ item'.stock) := by
  rw [buy_eq] at h ⊢
  by_cases hstock : item.stock ≠ -1 ∧ item.stock < q
  · rw [if_pos hstock] at h
    exact BuyResult.noConfusion h
  · rw [if_neg hstock] at h ⊢
    by_cases hfunds : user.stars < ((discountedPrice item.price day roles * q : ℤ) : ℚ)
    · rw [if_pos hfunds] at h
      exact BuyResult.noConfusion h
    · rw [if_neg hfunds]
      constructor
      · intro user' hu'
        simp only [Option.some.injEq] at hu'
        rw [← hu']
        exact sub_nonneg.mpr (not_lt.mp hfunds)
      · intro hfin item' hi'
        have hq : q ≤ item.stock := not_lt.mp (not_and.mp hstock hfin)
        rw [if_pos hfin] at hi'
        simp only [Option.some.injEq] at hi'
        rw [← hi']
        exact sub_nonneg.mpr hq

/-- Witness for C8 at the concrete successful purchase: balance and stock
stay non-negative. -/
theorem buy_success_balance_and_stock_nonneg_witness :
    (0 ≤ buyerW.stars)
    ∧ (buy ⟨some buyerW, some swordW, some [], none⟩ 1 2).1 = .success
    ∧ (∀ user', (buy ⟨some buyerW, some swordW, some [], none⟩ 1 2).2.user = some user'
        → 0 ≤ user'.stars)
    ∧ (swordW.stock ≠ -1 →
        ∀ item', (buy ⟨some buyerW, some swordW, some [], none⟩ 1 2).2.item = some item'
          → 0 ≤ item'.stock) := by
  have h0 : (0 : ℚ) ≤ buyerW.stars := by norm_num [buyerW]
  have hsucc : (buy ⟨some buyerW, some swordW, some [], none⟩ 1 2).1 = .success :=
    buyDbW_success
  obtain ⟨ha, hb⟩ := buy_success_balance_and_stock_nonneg buyerW swordW [] none 1 2 h0 hsucc
  exact ⟨h0, hsucc, ha, hb⟩

/-- A buyer with 10 stars used for the quantity-validation probe. -/
def qtyUser : CommandStats := ⟨"q", 0, 0, 0, 0, 0, 10, []⟩

/-- An item priced 7 with finite stock 5 used for the
quantity-validation probe. -/
def qtyItem : Item := ⟨"it", "potion", 7, 5⟩

/-- Documents for the quantity-validation probe: empty inventory
document present. -/
def qtyDb : BuyDb := ⟨some qtyUser, some qtyItem, some [], some []⟩

/-- C10: the `POST /buy` handler never validates that the quantity is a
positive integer.  Quantity 0 passes every guard, commits, and creates an
inventory line with quantity 0 (violating the `quantity ≥ 1` line
invariant); quantity −3 also commits and *increases* the stars balance
(10 → 31) and the finite stock (5 → 8). -/
theorem buy_accepts_nonpositive_quantity :
    ((buy qtyDb 1 0).1 = .success
      ∧ (buy qtyDb 1 0).2.inventory = some [⟨"it", "potion", 0⟩])
    ∧ ((buy qtyDb 1 (-3)).1 = .success
      ∧ (buy qtyDb 1 (-3)).2.user = some { qtyUser with stars := 31 }
      ∧ qtyUser.stars < 31
      ∧ (buy qtyDb 1 (-3)).2.item = some { qtyItem with stock := 8 }
      ∧ qtyItem.stock < 8) := by
  have e0 : buy qtyDb 1 0 = buy ⟨some qtyUser, some qtyItem, some [], some []⟩ 1 0 := rfl
  have e3 : buy qtyDb 1 (-3) = buy ⟨some qtyUser, some qtyItem, some [], some []⟩ 1 (-3) := rfl
  rw [e0, e3, buy_eq, buy_eq]
  norm_num [qtyUser, qtyItem, discountedPrice, discountPercentage, isDiscountDay,
    discountRoleId, jsRound, Rat.floor_def', List.contains, addToInventory,
    CommandStats.mk.injEq, Item.mk.injEq, InvLine.mk.injEq]

/-- C9: a purchase leaves the server-side cache untouched — the `POST
/buy` handler performs no delete or update on the `NodeCache`, so a `GET
/profile/:uuid` that still finds the `profile_<uuid>` entry (i.e. within
the time-to-live) returns the cached pre-purchase document, even right
after a successful purchase; only the client-side in-memory caches are
invalidated by `buyItem`. -/
theorem buy_server_cache_untouched :
    (∀ (s : ServerState) (day : Nat) (q : ℤ),
      (serverBuy s day q).2.cache = s.cache)
    ∧ (∀ (cache : ServerCache) (db : List CommandStats) (fetchedRoles : Option (List String))
        (uuid : String) (p : ProfileData),
        cache.lookup ("profile_" ++ uuid) = some p →
          (profileGet cache db fetchedRoles uuid).1 = some p
          ∧ (profileGet cache db fetchedRoles uuid).2 = cache)
    ∧ (∀ (s : ServerState) (day : Nat) (q : ℤ) (db : List CommandStats)
        (fetchedRoles : Option (List String)) (uuid : String) (p : ProfileData),
        s.cache.lookup ("profile_" ++ uuid) = some p →
          (profileGet (serverBuy s day q).2.cache db fetchedRoles uuid).1 = some p)
    ∧ (∀ (c : ClientCaches) (uuid : String),
        (clientBuySuccessCaches c uuid).shopDataCache = none
        ∧ (clientBuySuccessCaches c uuid).cachedProfileData.lookup uuid = some none) := by
  have hget : ∀ (cache : ServerCache) (db : List CommandStats)
      (fetchedRoles : Option (List String)) (uuid : String) (p : ProfileData),
      cache.lookup ("profile_" ++ uuid) = some p →
        (profileGet cache db fetchedRoles uuid).1 = some p
        ∧ (profileGet cache db fetchedRoles uuid).2 = cache := by
    intro cache db fetchedRoles uuid p hp
    rw [profileGet]
    simp [hp]
  refine ⟨fun _ _ _ => rfl, hget, ?_, ?_⟩
  · intro s day q db fetchedRoles uuid p hp
    exact (hget s.cache db fetchedRoles uuid p hp).1
  · intro c uuid
    refine ⟨rfl, ?_⟩
    simp [clientBuySuccessCaches, List.lookup]

/-- A concrete cached profile document for the cache-frame witness. -/
def cachedP : ProfileData := ⟨⟨"u", 0, 0, 0, 0, 0, 0, []⟩, 1, 1, 1, 1, [], []⟩

/-- Witness for C9: with `profile_u` present in the server cache the
profile read returns the cached document unchanged. -/
theorem buy_server_cache_untouched_witness :
    ([("profile_u", cachedP)] : ServerCache).lookup ("profile_" ++ "u") = some cachedP
    ∧ (profileGet [("profile_u", cachedP)] [] none "u").1 = some cachedP :=
  ⟨rfl,
    (buy_server_cache_untouched.2.1 [("profile_u", cachedP)] [] none "u" cachedP rfl).1⟩
